import Mathlib

/-!
Verification development for the resume-analyser ensemble decision engine
(`ensemble_model.py`): feature extraction, rule-based category scoring,
probability fusion, and recommendation derivation, shallowly embedded over ℚ.
-/

namespace ResumeAnalyser

/-- The four fixed career-path categories, in the label-map order
(`data_preprocess.py`: Private Job = 0, Higher Studies = 1,
Research Field = 2, Skill Improvement = 3). -/
inductive Category : Type
  | privateJob
  | higherStudies
  | researchField
  | skillImprovement
deriving DecidableEq, Repr

/-- Structured feature record produced by `ResumeAnalyzer.extract_features`. -/
structure ResumeFeatures : Type where
  cgpa : Option ℚ
  skills : List String
  hasInternship : Bool
  hasProjects : Bool
  hasResearch : Bool
  hasCertifications : Bool
deriving DecidableEq, Repr

/-- A per-category score vector (Python dict with the four fixed keys,
in insertion order). -/
structure Scores : Type where
  privateJob : ℚ
  higherStudies : ℚ
  researchField : ℚ
  skillImprovement : ℚ
deriving DecidableEq, Repr

/-- Look up one category's entry of a score vector. -/
def Scores.get (s : Scores) : Category → ℚ
  | Category.privateJob => s.privateJob
  | Category.higherStudies => s.higherStudies
  | Category.researchField => s.researchField
  | Category.skillImprovement => s.skillImprovement

/-! ## Text utilities (Python `str.lower`, `in`, and the CGPA regexes) -/

/-- Lowercase a character list (`text.lower()` on ASCII text). -/
def lowerChars (cs : List Char) : List Char := cs.map Char.toLower

/-- Characters matched by the regex class `[:\s]`. -/
def isColonSpace (c : Char) : Bool :=
  c = ':' || c = ' ' || c = '\t' || c = '\n' || c = '\r' || c = '\x0b' || c = '\x0c'

/-- Value of a digit string (most significant first). -/
def digitsVal (ds : List Char) : ℕ :=
  ds.foldl (fun a c => 10 * a + (c.toNat - 48)) 0

/-- Greedy parse of the regex group `\d+\.?\d*` at the head of the input:
one or more digits, an optional dot, then any further digits, read as the
decimal number Python's `float` would produce on the matched text. -/
def parseNum (cs : List Char) : Option ℚ :=
  let ds := cs.takeWhile Char.isDigit
  if ds.isEmpty then none
  else
    match cs.drop ds.length with
    | '.' :: rest =>
      let fs := rest.takeWhile Char.isDigit
      some ((digitsVal ds : ℚ) + (digitsVal fs : ℚ) / (10 : ℚ) ^ fs.length)
    | _ => some ((digitsVal ds : ℚ))

/-- Try to match one keyword pattern `KW[:\s]*(\d+\.?\d*)` (case-insensitive)
at the very start of `cs`; `kw` is given lowercase. -/
def matchKeyNumAt (kw : List Char) (cs : List Char) : Option ℚ :=
  if kw.isPrefixOf (lowerChars cs) then
    parseNum ((cs.drop kw.length).dropWhile isColonSpace)
  else none

/-- Try a list of keyword patterns at the start of `cs`, in order. -/
def matchAnyAt (kws : List (List Char)) (cs : List Char) : Option ℚ :=
  kws.foldr (fun kw acc => (matchKeyNumAt kw cs).orElse fun _ => acc) none

/-- Leftmost match: scan positions left to right, at each position trying the
keyword patterns in order (the semantics of `re.search` for these patterns). -/
def searchAny (kws : List (List Char)) : List Char → Option ℚ
  | [] => none
  | c :: cs => (matchAnyAt kws (c :: cs)).orElse fun _ => searchAny kws cs

/-- Cap an extracted raw number to the 0–10 scale:
`cgpa if cgpa <= 10 else cgpa / 10`. -/
def normalizeCgpa (v : ℚ) : ℚ := if v ≤ 10 then v else v / 10

/-- `ResumeAnalyzer._extract_cgpa`: search the whole text for
`CGPA[:\s]*(\d+\.?\d*)` first; only if that pattern matches nowhere, search
for `GPA[:\s]*(\d+\.?\d*)`; cap the first matched number to the 0–10 scale;
`none` when neither pattern matches. -/
def extractCgpa (text : String) : Option ℚ :=
  match searchAny ["cgpa".data] text.data with
  | some v => some (normalizeCgpa v)
  | none =>
    match searchAny ["gpa".data] text.data with
    | some v => some (normalizeCgpa v)
    | none => none

/-- Substring test (Python `needle in hay`). -/
def containsSub (needle hay : List Char) : Bool :=
  (List.range (hay.length + 1)).any fun i => needle.isPrefixOf (hay.drop i)

/-- The fixed skill vocabulary of `ResumeAnalyzer._extract_skills`. -/
def skillsDb : List String :=
  ["Python", "Java", "JavaScript", "C++", "C", "React", "Node.js", "Angular",
   "Vue", "Machine Learning", "Deep Learning", "TensorFlow", "PyTorch",
   "Keras", "MongoDB", "MySQL", "PostgreSQL", "Redis", "AWS", "Azure",
   "Docker", "Kubernetes", "Git"]

/-- `ResumeAnalyzer._extract_skills`: the vocabulary entries whose lowercase
form occurs in the lowercased text, in vocabulary order. -/
def extractSkills (text : String) : List String :=
  skillsDb.filter fun s => containsSub (lowerChars s.data) (lowerChars text.data)

/-- `ResumeAnalyzer._has_keyword`: does any keyword occur in the lowercased
text? -/
def hasKeyword (text : String) (kws : List String) : Bool :=
  kws.any fun kw => containsSub kw.data (lowerChars text.data)

/-- `ResumeAnalyzer.extract_features`. -/
def extractFeatures (text : String) : ResumeFeatures :=
  { cgpa := extractCgpa text
    skills := extractSkills text
    hasInternship := hasKeyword text ["intern", "internship"]
    hasProjects := hasKeyword text ["project"]
    hasResearch := hasKeyword text ["research", "publication", "paper"]
    hasCertifications := hasKeyword text ["certified", "certificate", "certification"] }

/-! ## Rule-based scoring (`ResumeAnalyzer.rule_based_score`) -/

/-- The rule table's contribution to "Private Job" from the internship
signal: `if features["has_internship"]: scores["Private Job"] += 35`. -/
def pjInternshipRule (f : ResumeFeatures) : ℚ :=
  if f.hasInternship then 35 else 0

/-- Contribution to "Private Job" from the skill count:
`+= 30` for 10 or more, `+= 20` for 8 or 9. -/
def pjSkillsRule (f : ResumeFeatures) : ℚ :=
  if f.skills.length ≥ 10 then 30 else if f.skills.length ≥ 8 then 20 else 0

/-- Contribution to "Private Job" from CGPA: `+= 20` when CGPA ≥ 7.5
(an absent CGPA reads as 0, mirroring `features["cgpa"] or 0`). -/
def pjCgpaRule (f : ResumeFeatures) : ℚ :=
  if f.cgpa.getD 0 ≥ 7.5 then 20 else 0

/-- Contribution to "Private Job" from the projects signal: `+= 15`. -/
def pjProjectsRule (f : ResumeFeatures) : ℚ :=
  if f.hasProjects then 15 else 0

/-- Contribution to "Higher Studies" from CGPA: `+= 50` at ≥ 9.0,
`+= 40` at ≥ 8.5, `+= 25` at ≥ 8.0. -/
def hsCgpaRule (f : ResumeFeatures) : ℚ :=
  if f.cgpa.getD 0 ≥ 9 then 50
  else if f.cgpa.getD 0 ≥ 8.5 then 40
  else if f.cgpa.getD 0 ≥ 8 then 25
  else 0

/-- Contribution to "Higher Studies" from the projects signal: `+= 15`. -/
def hsProjectsRule (f : ResumeFeatures) : ℚ :=
  if f.hasProjects then 15 else 0

/-- Contribution to "Higher Studies" from the skill count: `+= 10` at ≥ 6. -/
def hsSkillsRule (f : ResumeFeatures) : ℚ :=
  if f.skills.length ≥ 6 then 10 else 0

/-- Contribution to "Higher Studies" from the internship signal: `-= 5`. -/
def hsInternshipRule (f : ResumeFeatures) : ℚ :=
  if f.hasInternship then -5 else 0

/-- Contribution to "Research Field" from the research signal: `+= 50`. -/
def rfResearchRule (f : ResumeFeatures) : ℚ :=
  if f.hasResearch then 50 else 0

/-- Contribution to "Research Field" from CGPA: `+= 35` at ≥ 9.0,
`+= 25` at ≥ 8.5. -/
def rfCgpaRule (f : ResumeFeatures) : ℚ :=
  if f.cgpa.getD 0 ≥ 9 then 35 else if f.cgpa.getD 0 ≥ 8.5 then 25 else 0

/-- Contribution to "Research Field" from the projects signal: `+= 10`. -/
def rfProjectsRule (f : ResumeFeatures) : ℚ :=
  if f.hasProjects then 10 else 0

/-- Contribution to "Skill Improvement" from the skill count:
`+= 40` below 4, `+= 20` below 6. -/
def siSkillsRule (f : ResumeFeatures) : ℚ :=
  if f.skills.length < 4 then 40 else if f.skills.length < 6 then 20 else 0

/-- Contribution to "Skill Improvement" from CGPA: `+= 35` below 6.0,
`+= 20` below 7.0. -/
def siCgpaRule (f : ResumeFeatures) : ℚ :=
  if f.cgpa.getD 0 < 6 then 35 else if f.cgpa.getD 0 < 7 then 20 else 0

/-- Contribution to "Skill Improvement" when the internship signal is
absent: `+= 15`. -/
def siNoInternshipRule (f : ResumeFeatures) : ℚ :=
  if f.hasInternship then 0 else 15

/-- Contribution to "Skill Improvement" when the projects signal is
absent: `+= 15`. -/
def siNoProjectsRule (f : ResumeFeatures) : ℚ :=
  if f.hasProjects then 0 else 15

/-- The unnormalized point totals accumulated by
`ResumeAnalyzer.rule_based_score` before post-processing; `cgpa` reads as 0
when absent (`features["cgpa"] or 0`) and `skills_count` is the length of
the matched skill list. -/
def rawScores (f : ResumeFeatures) : Scores :=
  let cgpa : ℚ := f.cgpa.getD 0
  let skillsCount := f.skills.length
  { privateJob :=
      (if f.hasInternship then 35 else 0) +
      (if skillsCount ≥ 10 then 30 else if skillsCount ≥ 8 then 20 else 0) +
      (if cgpa ≥ 7.5 then 20 else 0) +
      (if f.hasProjects then 15 else 0)
    higherStudies :=
      (if cgpa ≥ 9 then 50 else if cgpa ≥ 8.5 then 40 else if cgpa ≥ 8 then 25 else 0) +
      (if f.hasProjects then 15 else 0) +
      (if skillsCount ≥ 6 then 10 else 0) +
      (if f.hasInternship then -5 else 0)
    researchField :=
      (if f.hasResearch then 50 else 0) +
      (if cgpa ≥ 9 then 35 else if cgpa ≥ 8.5 then 25 else 0) +
      (if f.hasProjects then 10 else 0)
    skillImprovement :=
      (if skillsCount < 4 then 40 else if skillsCount < 6 then 20 else 0) +
      (if cgpa < 6 then 35 else if cgpa < 7 then 20 else 0) +
      (if f.hasInternship then 0 else 15) +
      (if f.hasProjects then 0 else 15) }

/-- `scores = {k: max(0, v) for k, v in scores.items()}`. -/
def clampScores (s : Scores) : Scores :=
  { privateJob := max 0 s.privateJob
    higherStudies := max 0 s.higherStudies
    researchField := max 0 s.researchField
    skillImprovement := max 0 s.skillImprovement }

/-- `max_score = max(scores.values())`. -/
def maxScore (s : Scores) : ℚ :=
  max (max s.privateJob s.higherStudies) (max s.researchField s.skillImprovement)

/-- `ResumeAnalyzer.rule_based_score`: accumulate the rule points, clamp each
category at 0, then divide by the maximum; when the maximum is 0, return
0.25 for every category. -/
def ruleBasedScore (f : ResumeFeatures) : Scores :=
  let s := clampScores (rawScores f)
  let m := maxScore s
  if m > 0 then
    { privateJob := s.privateJob / m
      higherStudies := s.higherStudies / m
      researchField := s.researchField / m
      skillImprovement := s.skillImprovement / m }
  else
    { privateJob := 0.25, higherStudies := 0.25
      researchField := 0.25, skillImprovement := 0.25 }

/-! ## Ensemble fusion (`ResumeAnalyzer.predict`, lines 196–209) -/

/-- The per-category weighted combination:
`ml_weight * ml_probs_dict.get(c, 0) + rule_weight * rule_probs.get(c, 0)`. -/
def ensembleCombine (wMl wRule : ℚ) (ml rule : Category → ℚ) : Category → ℚ :=
  fun c => wMl * ml c + wRule * rule c

/-- `total = sum(ensemble_probs.values())`, over the label-map key order. -/
def distSum (d : Category → ℚ) : ℚ :=
  d Category.privateJob + d Category.higherStudies +
    d Category.researchField + d Category.skillImprovement

/-- `if total > 0: ensemble_probs = {k: v / total ...}`: divide by the total
when it is positive, otherwise leave the distribution unchanged. -/
def ensembleNormalize (d : Category → ℚ) : Category → ℚ :=
  if distSum d > 0 then fun c => d c / distSum d else d

/-- Python's `max(dict, key=dict.get)` fold: keep the current best and
replace it only on a strictly greater value. -/
def pickBest (d : Category → ℚ) : Category → List Category → Category
  | best, [] => best
  | best, c :: cs => pickBest d (if d c > d best then c else best) cs

/-- `final_category = max(ensemble_probs, key=ensemble_probs.get)`: the first
key in label-map iteration order attaining the maximum value. -/
def finalCategory (d : Category → ℚ) : Category :=
  pickBest d Category.privateJob
    [Category.higherStudies, Category.researchField, Category.skillImprovement]

/-- The fusion portion of `ResumeAnalyzer.predict`: the renormalized fused
distribution, the winning category, and its confidence. -/
def predictFused (wMl wRule : ℚ) (ml rule : Category → ℚ) :
    (Category → ℚ) × Category × ℚ :=
  let probs := ensembleNormalize (ensembleCombine wMl wRule ml rule)
  (probs, finalCategory probs, probs (finalCategory probs))

/-! ## Recommendations (`ResumeAnalyzer.generate_recommendations`) -/

/-- Python truthiness test `features["cgpa"] and features["cgpa"] < 7.0`:
false when the CGPA is absent or exactly 0. -/
def cgpaTruthyLtSeven (c : Option ℚ) : Bool :=
  match c with
  | none => false
  | some v => v ≠ 0 && v < 7

/-- `ResumeAnalyzer.generate_recommendations`, as a function of the winning
category and the feature record; the `else` branch of the source is the
"Skill Improvement" arm. -/
def generateRecommendations (category : Category) (f : ResumeFeatures) :
    List String :=
  match category with
  | Category.privateJob =>
    (if f.skills.length < 10 then ["Learn 2-3 more in-demand technologies"] else []) ++
    (if !f.hasCertifications then ["Get industry certifications (AWS, Azure, etc.)"] else []) ++
    ["Practice DSA on LeetCode/HackerRank", "Build strong GitHub portfolio"]
  | Category.higherStudies =>
    ["Prepare for GRE/GATE exams", "Research universities and programs",
     "Request letters of recommendation", "Write compelling Statement of Purpose"]
  | Category.researchField =>
    ["Publish papers in conferences/journals", "Connect with professors in your field",
     "Apply for research internships", "Consider PhD programs"]
  | Category.skillImprovement =>
    (if f.skills.length < 5 then ["Learn core programming: Python, Java, or JavaScript"] else []) ++
    (if !f.hasProjects then ["Build 3-4 substantial projects"] else []) ++
    ["Take online courses (Coursera, Udemy)", "Participate in hackathons"] ++
    (if cgpaTruthyLtSeven f.cgpa then ["Focus on improving academic performance"] else [])

/-- The CGPA extraction as the spec's sentence reads, for comparison with
`extractCgpa`: the number at the first (leftmost) case-insensitive match of
`CGPA` or `GPA` followed by a decimal number, capped to the 0–10 scale. -/
def extractCgpaSpecFirstMatch (text : String) : Option ℚ :=
  match searchAny ["cgpa".data, "gpa".data] text.data with
  | some v => some (normalizeCgpa v)
  | none => none

/-- The all-zero category distribution. -/
def zeroDist : Category → ℚ := fun _ => 0

/-- The feature record extracted from the empty resume text. -/
def emptyFeatures : ResumeFeatures :=
  { cgpa := none, skills := [], hasInternship := false, hasProjects := false,
    hasResearch := false, hasCertifications := false }

/-- A concrete feature record with a 9.0 CGPA, no skills, and an internship. -/
def highCgpaInternFeatures : ResumeFeatures :=
  { cgpa := some 9, skills := [], hasInternship := true, hasProjects := false,
    hasResearch := false, hasCertifications := false }

/-- A concrete feature record with two skills, no projects, and a 6.5 CGPA. -/
def twoSkillFeatures : ResumeFeatures :=
  { cgpa := some (13/2), skills := ["Python", "Java"], hasInternship := false,
    hasProjects := false, hasResearch := false, hasCertifications := false }

/-- The literal ML distribution of the spec's fusion example. -/
def mlExample : Category → ℚ
  | Category.privateJob => 1/10
  | Category.higherStudies => 1/2
  | Category.researchField => 3/10
  | Category.skillImprovement => 1/10

/-- The literal rule distribution of the spec's fusion example. -/
def ruleExample : Category → ℚ
  | Category.privateJob => 0
  | Category.higherStudies => 1/5
  | Category.researchField => 1
  | Category.skillImprovement => 0

/-! ## Helper lemmas about the rule scorer -/

/-- Every clamped score is nonnegative. -/
theorem clampScores_get_nonneg (s : Scores) (c : Category) :
    0 ≤ (clampScores s).get c := by
  cases c <;> exact le_max_left 0 _

/-- Clamping computes `max 0` per category. -/
theorem clampScores_get_eq (s : Scores) (c : Category) :
    (clampScores s).get c = max 0 (s.get c) := by
  cases c <;> rfl

/-- Each category's entry is at most the maximum entry. -/
theorem scores_get_le_maxScore (s : Scores) (c : Category) :
    s.get c ≤ maxScore s := by
  cases c <;> simp [Scores.get, maxScore, le_max_iff, le_refl]

/-- The maximum entry is attained by some category. -/
theorem exists_get_eq_maxScore (s : Scores) : ∃ c, s.get c = maxScore s := by
  unfold maxScore
  rcases max_choice (max s.privateJob s.higherStudies)
      (max s.researchField s.skillImprovement) with h | h
  · rcases max_choice s.privateJob s.higherStudies with h2 | h2
    · exact ⟨Category.privateJob, by rw [h, h2]; rfl⟩
    · exact ⟨Category.higherStudies, by rw [h, h2]; rfl⟩
  · rcases max_choice s.researchField s.skillImprovement with h2 | h2
    · exact ⟨Category.researchField, by rw [h, h2]; rfl⟩
    · exact ⟨Category.skillImprovement, by rw [h, h2]; rfl⟩

/-- With an internship, the raw "Private Job" total is at least the 35-point
internship contribution. -/
theorem pjRaw_ge_of_internship (f : ResumeFeatures) (h : f.hasInternship = true) :
    35 ≤ (rawScores f).privateJob := by
  have h2 : (0:ℚ) ≤
      if f.skills.length ≥ 10 then 30 else if f.skills.length ≥ 8 then 20 else 0 := by
    split_ifs <;> norm_num
  have h3 : (0:ℚ) ≤ if f.cgpa.getD 0 ≥ 7.5 then 20 else 0 := by
    split_ifs <;> norm_num
  have h4 : (0:ℚ) ≤ if f.hasProjects then 15 else 0 := by
    split_ifs <;> norm_num
  simp only [rawScores, h, if_true]
  linarith

/-- Without an internship, the raw "Skill Improvement" total is at least the
15-point no-internship contribution. -/
theorem siRaw_ge_of_no_internship (f : ResumeFeatures) (h : f.hasInternship = false) :
    15 ≤ (rawScores f).skillImprovement := by
  have h2 : (0:ℚ) ≤
      if f.skills.length < 4 then 40 else if f.skills.length < 6 then 20 else 0 := by
    split_ifs <;> norm_num
  have h3 : (0:ℚ) ≤ if f.cgpa.getD 0 < 6 then 35 else if f.cgpa.getD 0 < 7 then 20 else 0 := by
    split_ifs <;> norm_num
  have h4 : (0:ℚ) ≤ if f.hasProjects then 0 else 15 := by
    split_ifs <;> norm_num
  simp only [rawScores, h, Bool.false_eq_true, if_false]
  linarith

/-- The maximum clamped score is strictly positive for every feature record. -/
theorem maxScore_clamped_pos (f : ResumeFeatures) :
    0 < maxScore (clampScores (rawScores f)) := by
  cases h : f.hasInternship
  · have h1 := siRaw_ge_of_no_internship f h
    have h2 : (15:ℚ) ≤ (clampScores (rawScores f)).skillImprovement :=
      le_trans h1 (le_max_right 0 _)
    have h3 := scores_get_le_maxScore (clampScores (rawScores f)) Category.skillImprovement
    simp only [Scores.get] at h3
    linarith
  · have h1 := pjRaw_ge_of_internship f h
    have h2 : (35:ℚ) ≤ (clampScores (rawScores f)).privateJob :=
      le_trans h1 (le_max_right 0 _)
    have h3 := scores_get_le_maxScore (clampScores (rawScores f)) Category.privateJob
    simp only [Scores.get] at h3
    linarith

/-- Since the maximum is always positive, the scorer always takes the
division branch. -/
theorem ruleBasedScore_get_eq (f : ResumeFeatures) (c : Category) :
    (ruleBasedScore f).get c =
      (clampScores (rawScores f)).get c / maxScore (clampScores (rawScores f)) := by
  simp only [ruleBasedScore]
  rw [if_pos (maxScore_clamped_pos f)]
  cases c <;> rfl

/-- Some category's normalized rule score equals exactly 1. -/
theorem exists_ruleBasedScore_one (f : ResumeFeatures) :
    ∃ c, (ruleBasedScore f).get c = 1 := by
  obtain ⟨c, hc⟩ := exists_get_eq_maxScore (clampScores (rawScores f))
  exact ⟨c, by
    rw [ruleBasedScore_get_eq, hc, div_self (ne_of_gt (maxScore_clamped_pos f))]⟩

/-- Normalized rule scores are nonnegative. -/
theorem ruleBasedScore_get_nonneg (f : ResumeFeatures) (c : Category) :
    0 ≤ (ruleBasedScore f).get c := by
  rw [ruleBasedScore_get_eq]
  exact div_nonneg (clampScores_get_nonneg _ _) (maxScore_clamped_pos f).le

/-- Normalized rule scores are at most 1. -/
theorem ruleBasedScore_get_le_one (f : ResumeFeatures) (c : Category) :
    (ruleBasedScore f).get c ≤ 1 := by
  rw [ruleBasedScore_get_eq, div_le_one (maxScore_clamped_pos f)]
  exact scores_get_le_maxScore _ _

/-! ## Claim theorems -/

/-- Claim C1: the rule scorer's unnormalized point totals are the sums of the
fixed rule table's independent additive contributions, each a function of the
feature record alone; in particular CGPA ≥ 9.0 contributes exactly 50 to
"Higher Studies" and 35 to "Research Field", a skill count < 4 contributes
exactly 40 to "Skill Improvement", and an internship contributes exactly 35
to "Private Job" and −5 to "Higher Studies". -/
theorem claim_rule_table_decomposition (f : ResumeFeatures) :
    ((rawScores f).privateJob =
        pjInternshipRule f + pjSkillsRule f + pjCgpaRule f + pjProjectsRule f ∧
     (rawScores f).higherStudies =
        hsCgpaRule f + hsProjectsRule f + hsSkillsRule f + hsInternshipRule f ∧
     (rawScores f).researchField =
        rfResearchRule f + rfCgpaRule f + rfProjectsRule f ∧
     (rawScores f).skillImprovement =
        siSkillsRule f + siCgpaRule f + siNoInternshipRule f + siNoProjectsRule f) ∧
    (f.cgpa.getD 0 ≥ 9 → hsCgpaRule f = 50 ∧ rfCgpaRule f = 35) ∧
    (f.skills.length < 4 → siSkillsRule f = 40) ∧
    (f.hasInternship = true → pjInternshipRule f = 35 ∧ hsInternshipRule f = -5) := by
  refine ⟨⟨rfl, rfl, rfl, rfl⟩, ?_, ?_, ?_⟩
  · intro h
    constructor
    · simp [hsCgpaRule, ge_iff_le, h]
    · simp [rfCgpaRule, ge_iff_le, h]
  · intro h
    simp [siSkillsRule, h]
  · intro h
    exact ⟨by simp [pjInternshipRule, h], by simp [hsInternshipRule, h]⟩

/-- Witness for C1 at a concrete record with CGPA 9, no skills and an
internship. -/
theorem claim_rule_table_decomposition_witness :
    hsCgpaRule highCgpaInternFeatures = 50 ∧
    rfCgpaRule highCgpaInternFeatures = 35 ∧
    siSkillsRule highCgpaInternFeatures = 40 ∧
    pjInternshipRule highCgpaInternFeatures = 35 ∧
    hsInternshipRule highCgpaInternFeatures = -5 := by
  obtain ⟨-, h9, h4, hint⟩ := claim_rule_table_decomposition highCgpaInternFeatures
  obtain ⟨ha, hb⟩ := h9 (le_refl 9)
  obtain ⟨hc, hd⟩ := hint rfl
  exact ⟨ha, hb, h4 (by decide), hc, hd⟩

/-- Claim C2: the rule scorer clamps each accumulated score at 0 and divides
by the maximum, so every output lies in [0,1] and some output equals exactly
1; in the degenerate case of a zero maximum it returns 0.25 everywhere. -/
theorem claim_rule_score_normalization (f : ResumeFeatures) :
    (∀ c, 0 ≤ (ruleBasedScore f).get c ∧ (ruleBasedScore f).get c ≤ 1) ∧
    (∃ c, (ruleBasedScore f).get c = 1) ∧
    (0 < maxScore (clampScores (rawScores f)) →
      ∀ c, (ruleBasedScore f).get c =
        max 0 ((rawScores f).get c) / maxScore (clampScores (rawScores f))) ∧
    (maxScore (clampScores (rawScores f)) = 0 →
      ∀ c, (ruleBasedScore f).get c = 1/4) := by
  refine ⟨fun c => ⟨ruleBasedScore_get_nonneg f c, ruleBasedScore_get_le_one f c⟩,
    exists_ruleBasedScore_one f, fun _ c => ?_, fun h c => ?_⟩
  · rw [ruleBasedScore_get_eq, clampScores_get_eq]
  · cases c <;> norm_num [ruleBasedScore, h, Scores.get]

/-- Witness for C2 at the empty feature record. -/
theorem claim_rule_score_normalization_witness :
    (ruleBasedScore emptyFeatures).get Category.skillImprovement =
      max 0 ((rawScores emptyFeatures).get Category.skillImprovement) /
        maxScore (clampScores (rawScores emptyFeatures)) :=
  (claim_rule_score_normalization emptyFeatures).2.2.1
    (maxScore_clamped_pos emptyFeatures) Category.skillImprovement

/-- Claim C3 counterexample: on the empty text the features are all absent as
claimed, but the rule scorer does not return the uniform 0.25 distribution. -/
theorem claim_empty_text_counterexample :
    extractFeatures "" = emptyFeatures ∧
    ruleBasedScore (extractFeatures "") ≠
      { privateJob := 1/4, higherStudies := 1/4,
        researchField := 1/4, skillImprovement := 1/4 } := by
  constructor
  · rfl
  · rw [show extractFeatures "" = emptyFeatures from rfl]
    have h : ruleBasedScore emptyFeatures =
        { privateJob := 0, higherStudies := 0, researchField := 0,
          skillImprovement := 1 } := by
      norm_num [ruleBasedScore, rawScores, clampScores, maxScore, emptyFeatures, max_def]
    rw [h]
    norm_num [Scores.mk.injEq]

/-- Claim C3 as amended: the empty text yields an absent CGPA, no skills and
all-false booleans, and the rule scorer on those features returns 1.0 for
"Skill Improvement" and 0 for the other three categories. -/
theorem claim_empty_text_amended :
    extractFeatures "" = emptyFeatures ∧
    ruleBasedScore (extractFeatures "") =
      { privateJob := 0, higherStudies := 0, researchField := 0,
        skillImprovement := 1 } := by
  constructor
  · rfl
  · rw [show extractFeatures "" = emptyFeatures from rfl]
    norm_num [ruleBasedScore, rawScores, clampScores, maxScore, emptyFeatures, max_def]

/-- Claim C4 counterexample: on two all-zero distributions the combined sum
is 0 and the fused distribution is left all-zero, but the code still selects
"Private Job" — the first label in iteration order, an argmax of the all-zero
vector — as winner, instead of reporting an undefined winner. -/
theorem claim_zero_fusion_counterexample :
    distSum (ensembleCombine (1/2) (1/2) zeroDist zeroDist) = 0 ∧
    (predictFused (1/2) (1/2) zeroDist zeroDist).1 Category.privateJob = 0 ∧
    (predictFused (1/2) (1/2) zeroDist zeroDist).1 Category.higherStudies = 0 ∧
    (predictFused (1/2) (1/2) zeroDist zeroDist).1 Category.researchField = 0 ∧
    (predictFused (1/2) (1/2) zeroDist zeroDist).1 Category.skillImprovement = 0 ∧
    (predictFused (1/2) (1/2) zeroDist zeroDist).2.1 = Category.privateJob ∧
    (predictFused (1/2) (1/2) zeroDist zeroDist).2.2 = 0 := by
  norm_num [predictFused, ensembleNormalize, ensembleCombine, distSum,
    finalCategory, pickBest, zeroDist]

/-- Claim C4 as amended: when the weighted combination is degenerate
(entrywise nonnegative with zero sum), the fused distribution is left as the
all-zero vector, and the winner is the first category in label iteration
order — Private Job, an argmax of the all-zero vector — with confidence 0,
rather than an undefined/none result. -/
theorem claim_zero_fusion_amended (wMl wRule : ℚ) (ml rule : Category → ℚ)
    (hnn : ∀ c, 0 ≤ ensembleCombine wMl wRule ml rule c)
    (hsum : distSum (ensembleCombine wMl wRule ml rule) = 0) :
    (∀ c, (predictFused wMl wRule ml rule).1 c = 0) ∧
    (predictFused wMl wRule ml rule).2.1 = Category.privateJob ∧
    (predictFused wMl wRule ml rule).2.2 = 0 := by
  have h0 : ∀ c, ensembleCombine wMl wRule ml rule c = 0 := by
    have h1 := hnn Category.privateJob
    have h2 := hnn Category.higherStudies
    have h3 := hnn Category.researchField
    have h4 := hnn Category.skillImprovement
    simp only [distSum] at hsum
    intro c
    cases c <;> linarith
  have hset : ensembleNormalize (ensembleCombine wMl wRule ml rule) =
      ensembleCombine wMl wRule ml rule := by
    rw [ensembleNormalize, if_neg]
    intro hlt
    rw [hsum] at hlt
    exact lt_irrefl 0 hlt
  refine ⟨fun c => ?_, ?_, ?_⟩ <;>
    simp [predictFused, hset, finalCategory, pickBest, h0]

/-- Witness for the amended C4 at the all-zero distributions. -/
theorem claim_zero_fusion_amended_witness :
    (predictFused (1/2) (1/2) zeroDist zeroDist).2.1 = Category.privateJob ∧
    (predictFused (1/2) (1/2) zeroDist zeroDist).2.2 = 0 := by
  have h := claim_zero_fusion_amended (1/2) (1/2) zeroDist zeroDist
    (fun c => by norm_num [ensembleCombine, zeroDist])
    (by norm_num [distSum, ensembleCombine, zeroDist])
  exact ⟨h.2.1, h.2.2⟩

/-- Claim C5: with 0.5/0.5 weights and the spec's literal example vectors,
the combined vector is (0.05, 0.35, 0.65, 0.05), the renormalized vector is
exactly (1/22, 7/22, 13/22, 1/22), and the winner is Research Field with
confidence 13/22 ≈ 0.591 (within 0.001). -/
theorem claim_fusion_example :
    ensembleCombine (1/2) (1/2) mlExample ruleExample Category.privateJob = 1/20 ∧
    ensembleCombine (1/2) (1/2) mlExample ruleExample Category.higherStudies = 7/20 ∧
    ensembleCombine (1/2) (1/2) mlExample ruleExample Category.researchField = 13/20 ∧
    ensembleCombine (1/2) (1/2) mlExample ruleExample Category.skillImprovement = 1/20 ∧
    (predictFused (1/2) (1/2) mlExample ruleExample).1 Category.privateJob = 1/22 ∧
    (predictFused (1/2) (1/2) mlExample ruleExample).1 Category.higherStudies = 7/22 ∧
    (predictFused (1/2) (1/2) mlExample ruleExample).1 Category.researchField = 13/22 ∧
    (predictFused (1/2) (1/2) mlExample ruleExample).1 Category.skillImprovement = 1/22 ∧
    (predictFused (1/2) (1/2) mlExample ruleExample).2.1 = Category.researchField ∧
    (predictFused (1/2) (1/2) mlExample ruleExample).2.2 = 13/22 ∧
    (predictFused (1/2) (1/2) mlExample ruleExample).2.2 - 591/1000 < 1/1000 ∧
    591/1000 - (predictFused (1/2) (1/2) mlExample ruleExample).2.2 < 1/1000 := by
  norm_num [predictFused, ensembleNormalize, ensembleCombine, distSum,
    finalCategory, pickBest, mlExample, ruleExample]

/-- Claim C6: raising the CGPA from 6.0 to 9.5 with the skill set and all
boolean signals fixed never decreases the normalized rule score of "Higher
Studies" and never increases that of "Skill Improvement". -/
theorem claim_cgpa_monotonicity (f : ResumeFeatures) :
    (ruleBasedScore { f with cgpa := some 6 }).higherStudies ≤
      (ruleBasedScore { f with cgpa := some (19/2) }).higherStudies ∧
    (ruleBasedScore { f with cgpa := some (19/2) }).skillImprovement ≤
      (ruleBasedScore { f with cgpa := some 6 }).skillImprovement := by
  obtain ⟨c, sk, i, p, r, ce⟩ := f
  have hb : (sk.length < 4 ∧ sk.length < 6 ∧ ¬ 6 ≤ sk.length ∧
        ¬ 8 ≤ sk.length ∧ ¬ 10 ≤ sk.length) ∨
      (¬ sk.length < 4 ∧ sk.length < 6 ∧ ¬ 6 ≤ sk.length ∧
        ¬ 8 ≤ sk.length ∧ ¬ 10 ≤ sk.length) ∨
      (¬ sk.length < 4 ∧ ¬ sk.length < 6 ∧ 6 ≤ sk.length ∧
        ¬ 8 ≤ sk.length ∧ ¬ 10 ≤ sk.length) ∨
      (¬ sk.length < 4 ∧ ¬ sk.length < 6 ∧ 6 ≤ sk.length ∧
        8 ≤ sk.length ∧ ¬ 10 ≤ sk.length) ∨
      (¬ sk.length < 4 ∧ ¬ sk.length < 6 ∧ 6 ≤ sk.length ∧
        8 ≤ sk.length ∧ 10 ≤ sk.length) := by
    omega
  cases i <;> cases p <;> cases r <;>
    rcases hb with ⟨h1, h2, h3, h4, h5⟩ | ⟨h1, h2, h3, h4, h5⟩ | ⟨h1, h2, h3, h4, h5⟩ |
      ⟨h1, h2, h3, h4, h5⟩ | ⟨h1, h2, h3, h4, h5⟩ <;>
    norm_num [ruleBasedScore, rawScores, clampScores, maxScore, max_def,
      h1, h2, h3, h4, h5]

/-- Claim C7 counterexample: on a text mentioning a GPA before a CGPA, the
code returns the CGPA-pattern number (the whole text is searched for `CGPA`
before `GPA` is ever tried), not the number at the leftmost match of `CGPA`
or `GPA` that the claim describes. -/
theorem claim_cgpa_first_match_counterexample :
    extractCgpa "GPA: 5 CGPA: 9" = some 9 ∧
    extractCgpaSpecFirstMatch "GPA: 5 CGPA: 9" = some 5 ∧
    ¬ extractCgpa "GPA: 5 CGPA: 9" = extractCgpaSpecFirstMatch "GPA: 5 CGPA: 9" := by
  refine ⟨rfl, rfl, ?_⟩
  rw [show extractCgpa "GPA: 5 CGPA: 9" = some 9 from rfl,
    show extractCgpaSpecFirstMatch "GPA: 5 CGPA: 9" = some 5 from rfl]
  norm_num

/-- Claim C7 as amended: CGPA extraction searches the whole text for the
first match of `CGPA` followed by a decimal number and falls back to the
first match of `GPA` only when `CGPA` matches nowhere; the matched number is
divided by 10 when it exceeds 10 and returned unchanged when at most 10
(so "CGPA: 92" yields 9.2 and "CGPA: 7.5" yields 7.5), and the result is
absent when neither pattern matches. -/
theorem claim_cgpa_extraction_amended :
    extractCgpa "CGPA: 92" = some (46/5) ∧
    extractCgpa "CGPA: 7.5" = some (15/2) ∧
    extractCgpa "GPA: 8.1" = some (81/10) ∧
    extractCgpa "" = none ∧
    extractCgpa "GPA: 5 CGPA: 9" = some 9 ∧
    (∀ t v, searchAny ["cgpa".data] t.data = some v →
      extractCgpa t = some (normalizeCgpa v)) ∧
    (∀ t, searchAny ["cgpa".data] t.data = none →
      searchAny ["gpa".data] t.data = none → extractCgpa t = none) ∧
    (∀ v : ℚ, v ≤ 10 → normalizeCgpa v = v) ∧
    (∀ v : ℚ, 10 < v → normalizeCgpa v = v / 10) := by
  refine ⟨?_, ?_, ?_, rfl, rfl, ?_, ?_, ?_, ?_⟩
  · rw [show extractCgpa "CGPA: 92" = some (normalizeCgpa 92) from rfl]
    norm_num [normalizeCgpa]
  · rw [show extractCgpa "CGPA: 7.5" = some (normalizeCgpa ((7:ℚ) + 5/10^1)) from rfl]
    norm_num [normalizeCgpa]
  · rw [show extractCgpa "GPA: 8.1" = some (normalizeCgpa ((8:ℚ) + 1/10^1)) from rfl]
    norm_num [normalizeCgpa]
  · intro t v h
    simp only [extractCgpa, h]
  · intro t h1 h2
    simp only [extractCgpa, h1, h2]
  · intro v h
    simp [normalizeCgpa, h]
  · intro v h
    simp [normalizeCgpa, not_le.mpr h]

/-- Witness for the amended C7 on the normalization rule. -/
theorem claim_cgpa_extraction_amended_witness :
    normalizeCgpa 92 = 92 / 10 ∧ normalizeCgpa (15/2) = 15/2 := by
  obtain ⟨-, -, -, -, -, -, -, hle, hgt⟩ := claim_cgpa_extraction_amended
  exact ⟨hgt 92 (by norm_num), hle (15/2) (by norm_num)⟩

/-- Claim C8: for a "Skill Improvement" winner with 2 skills, no projects and
a 6.5 CGPA, the recommendations are exactly the core-language, build-projects,
online-courses, hackathon and academic-performance suggestions, in order. -/
theorem claim_skill_improvement_recommendations (f : ResumeFeatures)
    (h1 : f.skills.length = 2) (h2 : f.hasProjects = false)
    (h3 : f.cgpa = some (13/2)) :
    generateRecommendations Category.skillImprovement f =
      ["Learn core programming: Python, Java, or JavaScript",
       "Build 3-4 substantial projects",
       "Take online courses (Coursera, Udemy)",
       "Participate in hackathons",
       "Focus on improving academic performance"] := by
  norm_num [generateRecommendations, cgpaTruthyLtSeven, h1, h2, h3]

/-- Witness for C8 at a concrete two-skill record. -/
theorem claim_skill_improvement_recommendations_witness :
    generateRecommendations Category.skillImprovement twoSkillFeatures =
      ["Learn core programming: Python, Java, or JavaScript",
       "Build 3-4 substantial projects",
       "Take online courses (Coursera, Udemy)",
       "Participate in hackathons",
       "Focus on improving academic performance"] :=
  claim_skill_improvement_recommendations twoSkillFeatures rfl rfl rfl

/-- Claim C9: some category always gets a strictly positive raw score (with
an internship, "Private Job" gets at least 35 points; without one, "Skill
Improvement" gets at least 15), so the maximum clamped score is strictly
positive, the uniform-0.25 branch is unreachable, and some normalized output
equals exactly 1.0. -/
theorem claim_max_score_positive (f : ResumeFeatures) :
    (f.hasInternship = true → 35 ≤ (rawScores f).privateJob) ∧
    (f.hasInternship = false → 15 ≤ (rawScores f).skillImprovement) ∧
    0 < maxScore (clampScores (rawScores f)) ∧
    (∃ c, (ruleBasedScore f).get c = 1) :=
  ⟨pjRaw_ge_of_internship f, siRaw_ge_of_no_internship f,
    maxScore_clamped_pos f, exists_ruleBasedScore_one f⟩

/-- Witness for C9 at a record with an internship. -/
theorem claim_max_score_positive_witness :
    35 ≤ (rawScores highCgpaInternFeatures).privateJob :=
  (claim_max_score_positive highCgpaInternFeatures).1 rfl

/-- Claim C10: the rule scorer treats an absent CGPA as exactly 0: scoring is
unchanged by replacing an absent CGPA with 0.0, the `cgpa < 6.0` rule fires
and adds 35 points to "Skill Improvement", and no CGPA-threshold rule
contributes to any other category. -/
theorem claim_absent_cgpa_as_zero (f : ResumeFeatures)
    (h : f.cgpa = none ∨ f.cgpa = some 0) :
    ruleBasedScore f = ruleBasedScore { f with cgpa := some 0 } ∧
    siCgpaRule f = 35 ∧ pjCgpaRule f = 0 ∧ hsCgpaRule f = 0 ∧ rfCgpaRule f = 0 := by
  have hg : f.cgpa.getD 0 = 0 := by
    rcases h with h | h <;> simp [h]
  have hr : rawScores f = rawScores { f with cgpa := some 0 } := by
    simp [rawScores, hg]
  refine ⟨by simp only [ruleBasedScore, hr], ?_, ?_, ?_, ?_⟩ <;>
    norm_num [siCgpaRule, pjCgpaRule, hsCgpaRule, rfCgpaRule, hg]

/-- Witness for C10 at the empty feature record. -/
theorem claim_absent_cgpa_as_zero_witness :
    ruleBasedScore emptyFeatures = ruleBasedScore { emptyFeatures with cgpa := some 0 } ∧
    siCgpaRule emptyFeatures = 35 ∧ pjCgpaRule emptyFeatures = 0 ∧
    hsCgpaRule emptyFeatures = 0 ∧ rfCgpaRule emptyFeatures = 0 :=
  claim_absent_cgpa_as_zero emptyFeatures (Or.inl rfl)

end ResumeAnalyser
